import Mathlib

/-!
# hubpower: control the power settings for a USB hub

A shallow embedding of `src/hubpower.c` and the verification of its
natural-language specification.

The program talks to the kernel through `open`, `read` and `ioctl`.  The
embedding makes that explicit: an environment `Env` answers the k-th system
call of a run with a `Reply` (return code, `errno`, contents of the user
buffer after the call), and every function of the program returns the list of
`Event`s it produced (system calls with their replies, chunks written to
standard output, chunks written to the error stream) together with either
the remaining state (`Sys`: number of system calls made so far and `errno`)
or the `Status` with which the process ended.

The file includes `<strings.h>` and not `<string.h>`, so `strerror` is called
without a declaration; `perror` is declared by `<stdio.h>`.  The embedding
keeps the two apart: see `fprintf_strerror`.  (`strcmp` is not declared
either, but it returns `int`, which is what an undeclared function is taken
to return, so its calls behave as written.)
-/

namespace Hubpower

/-! ## Constants -/

/-- Milliseconds; `#define USB_HUB_TIMEOUT 5000`. -/
def USB_HUB_TIMEOUT : Nat := 5000
/-- Port feature selector; `#define USB_PORT_FEAT_POWER 8`. -/
def USB_PORT_FEAT_POWER : Nat := 8

/-- Constant of `linux/usb/ch9.h`: `USB_DIR_OUT`. -/
def USB_DIR_OUT : Nat := 0
/-- Constant of `linux/usb/ch9.h`: `USB_DIR_IN`. -/
def USB_DIR_IN : Nat := 0x80
/-- Constant of `linux/usb/ch9.h`: `USB_TYPE_CLASS` is `0x01 << 5`. -/
def USB_TYPE_CLASS : Nat := 0x20
/-- Constant of `linux/usb/ch9.h`: `USB_RECIP_DEVICE`. -/
def USB_RECIP_DEVICE : Nat := 0x00
/-- Constant of `linux/usb/ch9.h`: `USB_RECIP_OTHER`. -/
def USB_RECIP_OTHER : Nat := 0x03
/-- Constant of `linux/usb/ch9.h`: `USB_REQ_GET_STATUS`. -/
def USB_REQ_GET_STATUS : Nat := 0x00
/-- Constant of `linux/usb/ch9.h`: `USB_REQ_CLEAR_FEATURE`. -/
def USB_REQ_CLEAR_FEATURE : Nat := 0x01
/-- Constant of `linux/usb/ch9.h`: `USB_REQ_SET_FEATURE`. -/
def USB_REQ_SET_FEATURE : Nat := 0x03
/-- Constant of `linux/usb/ch9.h`: `USB_REQ_GET_DESCRIPTOR`. -/
def USB_REQ_GET_DESCRIPTOR : Nat := 0x06
/-- Constant of `linux/usb/ch9.h`: `USB_DT_DEVICE_SIZE`. -/
def USB_DT_DEVICE_SIZE : Nat := 18
/-- Constant of `linux/usb/ch9.h`: `USB_CLASS_HUB`. -/
def USB_CLASS_HUB : Nat := 9
/-- Constant of `linux/usbdevice_fs.h`: `USBDEVFS_DISCONNECT` is `_IO('U', 22)`. -/
def USBDEVFS_DISCONNECT : Nat := 0x5516
/-- Constant of `linux/usbdevice_fs.h`: `USBDEVFS_CONNECT` is `_IO('U', 23)`. -/
def USBDEVFS_CONNECT : Nat := 0x5517
/-- Constant of `errno.h` on Linux: `ENODATA`. -/
def ENODATA : Nat := 61

/-- Hub descriptor type; `#define USB_DT_HUB (USB_TYPE_CLASS | 0x09)`. -/
def USB_DT_HUB : Nat := USB_TYPE_CLASS ||| 0x09
/-- Size of the hub descriptor read; `#define USB_DT_HUB_SIZE 7`. -/
def USB_DT_HUB_SIZE : Nat := 7

def USB_PORT_STAT_CONNECTION : Nat := 0x0001
def USB_PORT_STAT_ENABLE : Nat := 0x0002
def USB_PORT_STAT_SUSPEND : Nat := 0x0004
def USB_PORT_STAT_OVERCURRENT : Nat := 0x0008
def USB_PORT_STAT_RESET : Nat := 0x0010
def USB_PORT_STAT_L1 : Nat := 0x0020
def USB_PORT_STAT_POWER : Nat := 0x0100
def USB_PORT_STAT_LOW_SPEED : Nat := 0x0200
def USB_PORT_STAT_HIGH_SPEED : Nat := 0x0400
def USB_PORT_STAT_TEST : Nat := 0x0800
def USB_PORT_STAT_INDICATOR : Nat := 0x1000
/-- The USB 3.0 position of the power bit. -/
def USB_PORT_STAT_POWER_3 : Nat := 0x0200

/-! ## The environment: system calls, replies, events -/

/-- What the kernel answers to one system call: the return value, the value
`errno` takes when the call fails, and the bytes found in the user buffer
after the call. -/
structure Reply where
  rc : Int
  errno : Nat
  buf : List Nat
deriving DecidableEq, Repr

/-- The system calls the program makes. -/
inductive Call where
  | sys_open (path : String)
  | sys_read (fd : Int) (count : Nat)
  | ioctl_control (fd : Int)
      (bRequestType bRequest wValue wIndex wLength timeout : Nat)
  | ioctl_usb (fd : Int) (ifno : Int) (ioctl_code : Nat)
deriving DecidableEq, Repr

/-- One observable step of a run. -/
inductive Event where
  | sys (c : Call) (r : Reply)
  | out (s : String)
  | err (s : String)
deriving DecidableEq, Repr

/-- The environment of a run: host byte order, the text the C library has
for each `errno` value (what `perror` prints), and the reply given to the k-th
system call. -/
structure Env where
  big_endian : Bool
  strerror : Nat → String
  oracle : Nat → Reply

/-- Process state next to the program variables: how many system calls were
made, and the current `errno`. -/
structure Sys where
  ncalls : Nat
  errno : Nat
deriving DecidableEq, Repr

/-- Performing a system call: the reply comes from the environment, `errno`
is set when the call returns -1. -/
def syscall (env : Env) (st : Sys) : Reply × Sys :=
  let r := env.oracle st.ncalls
  (r, ⟨st.ncalls + 1, if r.rc = -1 then r.errno else st.errno⟩)

/-- How the process ended: `exit(code)` or `return code` from `main`, or
death by a signal. -/
inductive Status where
  | exited (code : Int)
  | killed (signal : Nat)
deriving DecidableEq, Repr

/-- The result of a part of the program: either it goes on, with a value, or
the process has ended there. -/
inductive Outcome (α : Type) where
  | ok (value : α)
  | ended (status : Status)
deriving DecidableEq, Repr

/-- Constant of `signal.h` on Linux: `SIGSEGV`. -/
def SIGSEGV : Nat := 11

/-- A call `fprintf(stderr, "... %s\n", ..., strerror(...))` (lines 83-85,
172-175, 267-269).  No included header declares `strerror`, so the call is to
an implicitly declared function returning `int`; on an LP64 platform the
pointer it returns is cut to 32 bits, `%s` is handed a value that is no
address of a string, and the process is killed by SIGSEGV inside `fprintf`,
before any part of the message is written. -/
def fprintf_strerror : Status := Status.killed SIGSEGV

/-- Byte `k` of a user buffer. -/
def byte_at (buf : List Nat) (k : Nat) : Nat := buf.getD k 0 % 256

/-- A 16-bit struct field at offset `k`, read in host byte order. -/
def field16 (env : Env) (buf : List Nat) (k : Nat) : Nat :=
  if env.big_endian then byte_at buf k * 256 + byte_at buf (k + 1)
  else byte_at buf k + 256 * byte_at buf (k + 1)

/-- The kernel helper `__le16_to_cpu`: the identity on a little-endian host,
a byte swap on a big-endian one. -/
def le16_to_cpu (env : Env) (x : Nat) : Nat :=
  if env.big_endian then (x % 256) * 256 + (x / 256) % 256 else x % 65536

/-! ## The C library: formatting and parsing -/

def pad_left (width : Nat) (c : Char) (s : List Char) : List Char :=
  List.replicate (width - s.length) c ++ s

/-- Conversion `%d`. -/
def fmt_d (n : Int) : String :=
  String.mk (if n < 0 then '-' :: Nat.toDigits 10 n.natAbs else Nat.toDigits 10 n.natAbs)

/-- Conversion `%2d`: right-aligned in a field of width 2. -/
def fmt_2d (n : Int) : String :=
  String.mk (pad_left 2 ' ' (fmt_d n).data)

/-- Conversion `%03d`: zero-padded to width 3, the sign first. -/
def fmt_03d (n : Int) : String :=
  String.mk (if n < 0 then '-' :: pad_left 2 '0' (Nat.toDigits 10 n.natAbs)
    else pad_left 3 '0' (Nat.toDigits 10 n.natAbs))

/-- Conversion `%04x` of a non-negative value. -/
def fmt_04x (v : Nat) : String :=
  String.mk (pad_left 4 '0' (Nat.toDigits 16 v))

def isspace (c : Char) : Bool :=
  c = ' ' || c = '\t' || c = '\n' || c = '\x0b' || c = '\x0c' || c = '\r'

def skip_space : List Char → List Char
  | [] => []
  | c :: cs => if isspace c then skip_space cs else c :: cs

/-- Reads the longest run of decimal digits, accumulating its value. -/
def scan_digits : Nat → List Char → Nat × List Char
  | acc, [] => (acc, [])
  | acc, c :: cs =>
    if c.isDigit then scan_digits (acc * 10 + (c.toNat - 48)) cs else (acc, c :: cs)

/-- Optional sign, then digits: the value (unbounded), the number of digits
read, and the rest of the input. -/
def scan_signed (s : List Char) : Int × Nat × List Char :=
  match s with
  | '-' :: r => (- ((scan_digits 0 r).1 : Int), r.length - (scan_digits 0 r).2.length, (scan_digits 0 r).2)
  | '+' :: r => (((scan_digits 0 r).1 : Int), r.length - (scan_digits 0 r).2.length, (scan_digits 0 r).2)
  | r => (((scan_digits 0 r).1 : Int), r.length - (scan_digits 0 r).2.length, (scan_digits 0 r).2)

/-- The value `strtol` reports: clamped to the range of a 64-bit `long`. -/
def clamp_long (v : Int) : Int :=
  if v < -(2 ^ 63) then -(2 ^ 63) else if v > 2 ^ 63 - 1 then 2 ^ 63 - 1 else v

/-- Conversion of a `long` to `int`. -/
def to_int32 (v : Int) : Int := (v + 2 ^ 31) % 2 ^ 32 - 2 ^ 31

/-- Library function `atoi`, as `(int) strtol(s, NULL, 10)`. -/
def atoi (s : String) : Int :=
  to_int32 (clamp_long (scan_signed (skip_space s.data)).1)

/-- One `%d` of `sscanf`: skips white space, needs at least one digit. -/
def scan_d (s : List Char) : Option (Int × List Char) :=
  let r := scan_signed (skip_space s)
  if r.2.1 = 0 then none else some (to_int32 (clamp_long r.1), r.2.2)

/-- Call `sscanf(s, "%d:%d", &a, &b)`: the number of conversions made and the
two values (0 where none was stored). -/
def sscanf_d_colon_d (s : String) : Int × Int × Int :=
  match scan_d s.data with
  | none => (if skip_space s.data = [] then -1 else 0, 0, 0)
  | some (a, r) =>
    match r with
    | ':' :: r2 =>
      (match scan_d r2 with
       | none => (1, a, 0)
       | some (b, _) => (2, a, b))
    | _ => (1, a, 0)

/-! ## port_status -/

/-- The flag labels printed after the hexadecimal value (lines 91-120): one
entry per `printf` executed. -/
def port_status_flags (usb_level : Int) (w : Nat) : List String :=
  (if usb_level ≤ 2 then
     (if w &&& USB_PORT_STAT_INDICATOR ≠ 0 then [" Indicator"] else []) ++
     (if w &&& USB_PORT_STAT_TEST ≠ 0 then [" Test-Mode"] else []) ++
     (if w &&& USB_PORT_STAT_HIGH_SPEED ≠ 0 then [" High-Speed"] else []) ++
     (if w &&& USB_PORT_STAT_LOW_SPEED ≠ 0 then [" Low-Speed"] else []) ++
     (if w &&& USB_PORT_STAT_POWER ≠ 0 then [" Power-On"] else [" Power-Off"])
   else if usb_level = 3 then
     (if w &&& USB_PORT_STAT_POWER_3 ≠ 0 then [" Power-On"] else [" Power-Off"])
   else []) ++
  (if w &&& USB_PORT_STAT_RESET ≠ 0 then [" Resetting"] else []) ++
  (if w &&& USB_PORT_STAT_OVERCURRENT ≠ 0 then [" Overcurrent"] else []) ++
  (if w &&& USB_PORT_STAT_SUSPEND ≠ 0 then [" Suspended"] else []) ++
  (if w &&& USB_PORT_STAT_ENABLE ≠ 0 then [" Enabled"] else []) ++
  (if w &&& USB_PORT_STAT_CONNECTION ≠ 0 then [" Connected"] else [])

/-- The first `printf` of a status line (line 89). -/
def port_status_header (portnum : Int) (w : Nat) : String :=
  "Port " ++ fmt_2d portnum ++ " status: " ++ fmt_04x w ++ " "

/-- What `port_status` prints once the query succeeded (lines 89-122). -/
def port_status_print (usb_level : Int) (portnum : Int) (w : Nat) : List Event :=
  Event.out (port_status_header portnum w) ::
    ((port_status_flags usb_level w).map Event.out ++ [Event.out "\n"])

/-- The GET_STATUS request of `port_status` (lines 73-80); `wIndex` is a
16-bit field. -/
def get_status_call (fd : Int) (portnum : Int) : Call :=
  Call.ioctl_control fd (USB_DIR_IN ||| USB_TYPE_CLASS ||| USB_RECIP_OTHER)
    USB_REQ_GET_STATUS 0 (portnum % 65536).toNat 4 USB_HUB_TIMEOUT

/-- Function `port_status` (lines 67-123), with the globals `fd` and
`usb_level` as arguments.  When the query fails the error report of lines
83-85 is a `fprintf_strerror` and ends the process. -/
def port_status (env : Env) (fd : Int) (usb_level : Int) (portnum : Int) (st : Sys) :
    List Event × Outcome Sys :=
  let r := (syscall env st).1
  let st1 := (syscall env st).2
  if r.rc = -1 then
    ([Event.sys (get_status_call fd portnum) r], Outcome.ended fprintf_strerror)
  else
    (Event.sys (get_status_call fd portnum) r ::
      port_status_print usb_level portnum (field16 env r.buf 0), Outcome.ok st1)

/-! ## main -/

inductive Action where
  | DO_POWER
  | DO_STATUS
  | DO_BIND
deriving DecidableEq, Repr

/-- The text `usage` writes to the error stream before `exit(1)`. -/
def usage_text : String :=
  "Usage:" ++
  "\thubpower busnum:devnum power \x7bportnum (on|off)\x7d ...\n" ++
  "\thubpower busnum:devnum status\n" ++
  "\thubpower busnum:devnum bind\n"

/-- Argument checks of `main` (lines 138-159): `none` when `usage()` is
called, otherwise `busnum`, `devnum` and the action.  `argc` is the length of
`argv`; `argc - 3` is only computed once `argc >= 3` is known. -/
def validate (argv : List String) : Option (Int × Int × Action) :=
  let argc := argv.length
  if argc < 3 then none
  else
    let s := sscanf_d_colon_d (argv.getD 1 "")
    let busnum := s.2.1
    let devnum := s.2.2
    if s.1 ≠ 2 ∨ busnum ≤ 0 ∨ busnum > 255 ∨ devnum ≤ 0 ∨ devnum > 255 then none
    else if argv.getD 2 "" = "power" then
      if (argc - 3) % 2 ≠ 0 then none else some (busnum, devnum, Action.DO_POWER)
    else if argv.getD 2 "" = "status" then
      if argc ≠ 3 then none else some (busnum, devnum, Action.DO_STATUS)
    else if argv.getD 2 "" = "bind" then
      if argc ≠ 3 then none else some (busnum, devnum, Action.DO_BIND)
    else none

/-- What the set-up part of `main` leaves behind for the actions: the globals
`fd` and `usb_level`, and the local `numports`. -/
structure Hub where
  fd : Int
  usb_level : Int
  numports : Nat
deriving DecidableEq, Repr

/-- Message of `perror(msg)`. -/
def perror_text (env : Env) (msg : String) (st : Sys) : String :=
  msg ++ ": " ++ env.strerror st.errno ++ "\n"

/-- The hub-descriptor request (lines 195-201). -/
def hub_descriptor_call (fd : Int) : Call :=
  Call.ioctl_control fd (USB_DIR_IN ||| USB_TYPE_CLASS ||| USB_RECIP_DEVICE)
    USB_REQ_GET_DESCRIPTOR (USB_DT_HUB <<< 8) 0 USB_DT_HUB_SIZE USB_HUB_TIMEOUT

/-- Lines 180-207 of `main`: read the device descriptor, check the device
class, derive `usb_level`, fetch the hub descriptor.  The three failures
`return 1`. -/
def hub_identify (env : Env) (busnum devnum : Int) (fd : Int) (bus_endian : Bool)
    (st : Sys) : List Event × Outcome Hub × Sys :=
  let r := (syscall env st).1
  let st1 := (syscall env st).2
  let ev_read := Event.sys (Call.sys_read fd USB_DT_DEVICE_SIZE) r
  if r.rc ≠ USB_DT_DEVICE_SIZE then
    ([ev_read, Event.err (perror_text env "Error reading device descriptor" st1)],
      Outcome.ended (Status.exited 1), st1)
  else if byte_at r.buf 4 ≠ USB_CLASS_HUB then
    ([ev_read, Event.err ("Device " ++ fmt_d busnum ++ ":" ++ fmt_d devnum ++
        " is not a hub\n")], Outcome.ended (Status.exited 1), st1)
  else
    let bcdUSB := if bus_endian then le16_to_cpu env (field16 env r.buf 2)
      else field16 env r.buf 2
    let usb_level : Int := ((bcdUSB >>> 8 : Nat) : Int)
    let rh := (syscall env st1).1
    let st2 := (syscall env st1).2
    let ev_hub := Event.sys (hub_descriptor_call fd) rh
    if rh.rc = -1 then
      ([ev_read, ev_hub,
        Event.err (perror_text env "Error in ioctl (read hub descriptor)" st2)],
        Outcome.ended (Status.exited 1), st2)
    else
      ([ev_read, ev_hub], Outcome.ok ⟨fd, usb_level, byte_at rh.buf 2⟩, st2)

/-- Lines 161-178 of `main`: open the device node, first path then second.
On success the descriptor `fd` and the flag `bus_endian`.  When both paths
fail, the first report (lines 172-173) is a `fprintf_strerror` and ends the
process. -/
def open_device (env : Env) (busnum devnum : Int) (st : Sys) :
    List Event × Outcome (Int × Bool) × Sys :=
  let fname1 := "/dev/bus/usb/" ++ fmt_03d busnum ++ "/" ++ fmt_03d devnum
  let fname2 := "/proc/bus/usb/" ++ fmt_03d busnum ++ "/" ++ fmt_03d devnum
  let r1 := (syscall env st).1
  let st1 := (syscall env st).2
  if r1.rc < 0 then
    let r2 := (syscall env st1).1
    let st2 := (syscall env st1).2
    if r2.rc < 0 then
      ([Event.sys (Call.sys_open fname1) r1, Event.sys (Call.sys_open fname2) r2],
        Outcome.ended fprintf_strerror, st2)
    else
      ([Event.sys (Call.sys_open fname1) r1, Event.sys (Call.sys_open fname2) r2],
        Outcome.ok (r2.rc, false), st2)
  else
    ([Event.sys (Call.sys_open fname1) r1], Outcome.ok (r1.rc, true), st1)

/-- Lines 161-207 of `main`: `open_device`, then `hub_identify`. -/
def hub_setup (env : Env) (busnum devnum : Int) (st : Sys) :
    List Event × Outcome Hub × Sys :=
  match open_device env busnum devnum st with
  | (evs, Outcome.ended status, st1) => (evs, Outcome.ended status, st1)
  | (evs, Outcome.ok (fd, bus_endian), st1) =>
    ((evs ++ (hub_identify env busnum devnum fd bus_endian st1).1),
      (hub_identify env busnum devnum fd bus_endian st1).2)

/-- The loop of lines 210-211: `n` iterations remain, the next one is for
`portnum`.  A `port_status` that ends the process ends the loop. -/
def status_loop (env : Env) (fd : Int) (usb_level : Int) :
    Nat → Int → Sys → List Event × Outcome Sys
  | 0, _, st => ([], Outcome.ok st)
  | n + 1, portnum, st =>
    match port_status env fd usb_level portnum st with
    | (evs, Outcome.ended status) => (evs, Outcome.ended status)
    | (evs, Outcome.ok st1) =>
      (evs ++ (status_loop env fd usb_level n (portnum + 1) st1).1,
        (status_loop env fd usb_level n (portnum + 1) st1).2)

/-- Action `DO_STATUS` (lines 209-213). -/
def do_status (env : Env) (hub : Hub) (st : Sys) : List Event × Status :=
  match status_loop env hub.fd hub.usb_level hub.numports 1 st with
  | (evs, Outcome.ended status) => (evs, status)
  | (evs, Outcome.ok _) => (evs, Status.exited 0)

/-- Action `DO_BIND` (lines 215-226). -/
def do_bind (env : Env) (hub : Hub) (st : Sys) : List Event × Status :=
  let r := (syscall env st).1
  let st1 := (syscall env st).2
  let ev := Event.sys (Call.ioctl_usb hub.fd 0 USBDEVFS_CONNECT) r
  if r.rc = -1 then
    ([ev, Event.err (perror_text env "Error in ioctl (USBDEVFS_CONNECT)" st1)],
      Status.exited 1)
  else
    ([ev, Event.out "Bind-driver request sent to the kernel\n"], Status.exited 0)

/-- The SET_FEATURE / CLEAR_FEATURE request of the power loop (lines 258-264). -/
def power_call (fd : Int) (bRequest : Nat) (portnum : Int) : Call :=
  Call.ioctl_control fd (USB_DIR_OUT ||| USB_TYPE_CLASS ||| USB_RECIP_OTHER)
    bRequest USB_PORT_FEAT_POWER (portnum % 65536).toNat 0 USB_HUB_TIMEOUT

/-- The part of one iteration of the power loop after `bRequest` is chosen
(lines 258-273).  When the request fails the error report of lines 267-269 is
a `fprintf_strerror` and ends the process. -/
def power_transfer (env : Env) (hub : Hub) (bRequest : Nat) (portnum : Int) (st : Sys) :
    List Event × Outcome Sys :=
  let r := (syscall env st).1
  let st1 := (syscall env st).2
  let ev := Event.sys (power_call hub.fd bRequest portnum) r
  if r.rc = -1 then
    ([ev], Outcome.ended fprintf_strerror)
  else
    (ev :: (port_status env hub.fd hub.usb_level portnum st1).1,
      (port_status env hub.fd hub.usb_level portnum st1).2)

/-- One iteration of the power loop (lines 241-273) for the arguments
`argv[i]` and `argv[i+1]`. -/
def power_step (env : Env) (hub : Hub) (port_arg power_arg : String) (st : Sys) :
    List Event × Outcome Sys :=
  let portnum := atoi port_arg
  if portnum < 1 ∨ portnum > hub.numports then
    ([Event.err ("Invalid port number: " ++ fmt_d portnum ++ "\n")], Outcome.ok st)
  else if power_arg = "on" then
    power_transfer env hub USB_REQ_SET_FEATURE portnum st
  else if power_arg = "off" then
    power_transfer env hub USB_REQ_CLEAR_FEATURE portnum st
  else
    ([Event.err ("Invalid port power level: " ++ power_arg ++ "\n)")], Outcome.ok st)

/-- The loop of lines 240-274 over `argv[3..]`, two arguments at a time.  The
argument check of `main` makes the number of these arguments even.  An
iteration that ends the process ends the loop. -/
def power_loop (env : Env) (hub : Hub) : List String → Sys → List Event × Outcome Sys
  | port_arg :: power_arg :: rest, st =>
    match power_step env hub port_arg power_arg st with
    | (evs, Outcome.ended status) => (evs, Outcome.ended status)
    | (evs, Outcome.ok st1) =>
      (evs ++ (power_loop env hub rest st1).1, (power_loop env hub rest st1).2)
  | _, st => ([], Outcome.ok st)

/-- Action `DO_POWER` (lines 228-276); `args` is `argv[3..]`. -/
def do_power (env : Env) (hub : Hub) (args : List String) (st : Sys) :
    List Event × Status :=
  let r := (syscall env st).1
  let st1 := (syscall env st).2
  let ev := Event.sys (Call.ioctl_usb hub.fd 0 USBDEVFS_DISCONNECT) r
  if r.rc = -1 ∧ st1.errno ≠ ENODATA then
    ([ev, Event.err (perror_text env "Error in ioctl (USBDEVFS_DISCONNECT)" st1)],
      Status.exited 1)
  else
    match power_loop env hub args st1 with
    | (evs, Outcome.ended status) => (ev :: evs, status)
    | (evs, Outcome.ok _) => (ev :: evs, Status.exited 0)

/-- Function `main`: the events of the run and how the process ended. -/
def main (env : Env) (argv : List String) : List Event × Status :=
  match validate argv with
  | none => ([Event.err usage_text], Status.exited 1)
  | some (busnum, devnum, action) =>
    match hub_setup env busnum devnum ⟨0, 0⟩ with
    | (evs, Outcome.ended status, _) => (evs, status)
    | (evs, Outcome.ok hub, st) =>
      match action with
      | Action.DO_STATUS => (evs ++ (do_status env hub st).1, (do_status env hub st).2)
      | Action.DO_BIND => (evs ++ (do_bind env hub st).1, (do_bind env hub st).2)
      | Action.DO_POWER =>
        (evs ++ (do_power env hub (argv.drop 3) st).1, (do_power env hub (argv.drop 3) st).2)

/-! ## Observations on a run -/

/-- The chunks written to standard output, in order. -/
def stdout_chunks : List Event → List String
  | [] => []
  | Event.out s :: evs => s :: stdout_chunks evs
  | _ :: evs => stdout_chunks evs

/-- The text on standard output. -/
def stdout_text (evs : List Event) : String := String.join (stdout_chunks evs)

/-- Any `ioctl` call. -/
def is_ioctl : Event → Bool
  | Event.sys (Call.ioctl_control _ _ _ _ _ _ _) _ => true
  | Event.sys (Call.ioctl_usb _ _ _) _ => true
  | _ => false

/-- The driver-disconnect `ioctl`. -/
def is_disconnect : Event → Bool
  | Event.sys (Call.ioctl_usb _ _ code) _ => code = USBDEVFS_DISCONNECT
  | _ => false

/-- A per-port control transfer: a control transfer whose recipient (low five
bits of `bRequestType`) is `USB_RECIP_OTHER`. -/
def is_port_transfer : Event → Bool
  | Event.sys (Call.ioctl_control _ bRequestType _ _ _ _ _) _ =>
    bRequestType &&& 0x1f = USB_RECIP_OTHER
  | _ => false

/-- The `wIndex` values of the per-port control transfers of a run. -/
def port_indices : List Event → List Nat
  | [] => []
  | Event.sys (Call.ioctl_control fd bRequestType a b wIndex c d) r :: evs =>
    if is_port_transfer (Event.sys (Call.ioctl_control fd bRequestType a b wIndex c d) r)
    then wIndex :: port_indices evs else port_indices evs
  | _ :: evs => port_indices evs

/-- The host-to-device per-port control transfers (SET_FEATURE and
CLEAR_FEATURE requests) of a run, in order. -/
def power_requests : List Event → List Call
  | [] => []
  | Event.sys (Call.ioctl_control fd bRequestType a b wIndex c d) _ :: evs =>
    if bRequestType = (USB_DIR_OUT ||| USB_TYPE_CLASS ||| USB_RECIP_OTHER)
    then Call.ioctl_control fd bRequestType a b wIndex c d :: power_requests evs
    else power_requests evs
  | _ :: evs => power_requests evs

/-- The environment `env` with the reply to system call `k` replaced. -/
def Env.with_reply (env : Env) (k : Nat) (r : Reply) : Env :=
  ⟨env.big_endian, env.strerror, Function.update env.oracle k r⟩

/-- A sample environment: a little-endian host, device 2:5 a four-port USB 2
hub; `open` returns descriptor 3, the device descriptor (18 bytes, class 9,
bcdUSB 0x0200) and the hub descriptor (4 ports) are read, every later call
succeeds and every port reports status 0x0103. -/
def sample_env : Env :=
  ⟨false, fun _ => "E", fun k =>
    if k = 0 then ⟨3, 0, []⟩
    else if k = 1 then ⟨18, 0, [18, 1, 0, 2, 9, 0, 0, 64]⟩
    else if k = 2 then ⟨7, 0, [9, 0x29, 4, 0, 0, 50, 100]⟩
    else ⟨0, 0, [0x03, 0x01, 0, 0]⟩⟩

/-- The set-up events of a run against `sample_env` for device 2:5. -/
def sample_setup_events : List Event :=
  [Event.sys (Call.sys_open "/dev/bus/usb/002/005") ⟨3, 0, []⟩,
   Event.sys (Call.sys_read 3 18) ⟨18, 0, [18, 1, 0, 2, 9, 0, 0, 64]⟩,
   Event.sys (hub_descriptor_call 3) ⟨7, 0, [9, 0x29, 4, 0, 0, 50, 100]⟩]

/-- The status word a port-status query made in state `st` finds in its
buffer (`pstat.wPortStatus`). -/
def status_word (env : Env) (st : Sys) : Nat :=
  field16 env (env.oracle st.ncalls).buf 0

/-- The five flags printed at every protocol level, in the order of their
`printf` calls, each with its bit. -/
def common_flags : List (Nat × String) :=
  [(USB_PORT_STAT_RESET, " Resetting"), (USB_PORT_STAT_OVERCURRENT, " Overcurrent"),
   (USB_PORT_STAT_SUSPEND, " Suspended"), (USB_PORT_STAT_ENABLE, " Enabled"),
   (USB_PORT_STAT_CONNECTION, " Connected")]

/-- The fixed order of the labels, with the given power label in its place. -/
def label_order (power : String) : List String :=
  [" Indicator", " Test-Mode", " High-Speed", " Low-Speed", power,
   " Resetting", " Overcurrent", " Suspended", " Enabled", " Connected"]

/-- The digits `%x` prints. -/
def hex_digits : List Char := "0123456789abcdef".data

/-- Number of positions of `text` at which `pat` occurs. -/
def occurrences (pat : List Char) : List Char → Nat
  | [] => if pat.isPrefixOf [] then 1 else 0
  | c :: cs => (if pat.isPrefixOf (c :: cs) then 1 else 0) + occurrences pat cs

/-- Every flag label `port_status` can print. -/
def all_labels : List String :=
  [" Indicator", " Test-Mode", " High-Speed", " Low-Speed", " Power-On", " Power-Off",
   " Resetting", " Overcurrent", " Suspended", " Enabled", " Connected"]

/-- The characters the numeric conversions can produce: digits, the sign, the
padding blank. -/
def number_chars : List Char := "0123456789abcdef*- ".data


/-! ## Argument checks -/

theorem validate_none_main (env : Env) (argv : List String) (h : validate argv = none) :
    main env argv = ([Event.err usage_text], Status.exited 1) := by
  simp [main, h]

theorem getD_of_getElem? (argv : List String) (k : Nat) (s : String)
    (h : argv[k]? = some s) : argv.getD k "" = s := by
  simp [List.getD, h]

/-- C6: when `argv[2]` is "power" and the number of arguments after it is odd,
the run consists of the usage text on the error stream and exit status 1: no
`open`, no `read`, no `ioctl`. -/
theorem power_odd_arguments_usage (env : Env) (argv : List String)
    (hpower : argv[2]? = some "power") (hodd : (argv.length - 3) % 2 = 1) :
    main env argv = ([Event.err usage_text], Status.exited 1) := by
  apply validate_none_main
  have h2 := getD_of_getElem? argv 2 "power" hpower
  simp only [validate, h2]
  split_ifs <;> simp_all

theorem power_odd_arguments_usage_witness :
    main sample_env ["hubpower", "2:5", "power", "3"] = ([Event.err usage_text], Status.exited 1) :=
  power_odd_arguments_usage sample_env ["hubpower", "2:5", "power", "3"] (by decide) (by decide)

/-! ## Set-up -/

theorem open_device_no_ioctl (env : Env) (busnum devnum : Int) (st : Sys) :
    ∀ e ∈ (open_device env busnum devnum st).1, is_ioctl e = false := by
  have h : ((open_device env busnum devnum st).1.all fun e => !is_ioctl e) = true := by
    unfold open_device
    dsimp only
    split_ifs <;> rfl
  intro e he
  have h2 := List.all_eq_true.mp h e he
  simpa using h2

/-- C7: when the argument check passes, the device node opens, a full-size
device descriptor is read and its class byte is not the hub class, the run is
the `open` calls, the `read`, the message "Device b:d is not a hub" on the
error stream, and exit status 1; no `ioctl` is issued. -/
theorem not_a_hub_exits_before_any_ioctl (env : Env) (argv : List String)
    (busnum devnum : Int) (action : Action) (evs : List Event) (fd : Int)
    (bus_endian : Bool) (st : Sys)
    (hv : validate argv = some (busnum, devnum, action))
    (hopen : open_device env busnum devnum ⟨0, 0⟩ = (evs, Outcome.ok (fd, bus_endian), st))
    (hread : (env.oracle st.ncalls).rc = USB_DT_DEVICE_SIZE)
    (hclass : byte_at (env.oracle st.ncalls).buf 4 ≠ USB_CLASS_HUB) :
    main env argv =
      (evs ++ [Event.sys (Call.sys_read fd USB_DT_DEVICE_SIZE) (env.oracle st.ncalls),
        Event.err ("Device " ++ fmt_d busnum ++ ":" ++ fmt_d devnum ++ " is not a hub\n")], Status.exited 1)
    ∧ ∀ e ∈ (main env argv).1, is_ioctl e = false := by
  have hmain : main env argv =
      (evs ++ [Event.sys (Call.sys_read fd USB_DT_DEVICE_SIZE) (env.oracle st.ncalls),
        Event.err ("Device " ++ fmt_d busnum ++ ":" ++ fmt_d devnum ++ " is not a hub\n")], Status.exited 1) := by
    simp [main, hv, hub_setup, hopen, hub_identify, syscall, hread, hclass]
  refine ⟨hmain, ?_⟩
  rw [hmain]
  intro e he
  have hno := open_device_no_ioctl env busnum devnum ⟨0, 0⟩
  rw [hopen] at hno
  simp only [List.mem_append, List.mem_cons, List.mem_singleton, List.not_mem_nil, or_false] at he
  rcases he with h | h | h
  · exact hno e h
  · subst h; rfl
  · subst h; rfl

theorem not_a_hub_exits_before_any_ioctl_witness :
    main (sample_env.with_reply 1 ⟨18, 0, [18, 1, 0, 2, 0, 0, 0, 64]⟩)
        ["hubpower", "2:5", "status"] =
      ([Event.sys (Call.sys_open "/dev/bus/usb/002/005") ⟨3, 0, []⟩] ++
        [Event.sys (Call.sys_read 3 USB_DT_DEVICE_SIZE) ⟨18, 0, [18, 1, 0, 2, 0, 0, 0, 64]⟩,
         Event.err ("Device " ++ fmt_d 2 ++ ":" ++ fmt_d 5 ++ " is not a hub\n")], Status.exited 1)
    ∧ ∀ e ∈ (main (sample_env.with_reply 1 ⟨18, 0, [18, 1, 0, 2, 0, 0, 0, 64]⟩)
        ["hubpower", "2:5", "status"]).1, is_ioctl e = false :=
  not_a_hub_exits_before_any_ioctl (sample_env.with_reply 1 ⟨18, 0, [18, 1, 0, 2, 0, 0, 0, 64]⟩)
    ["hubpower", "2:5", "status"] 2 5 Action.DO_STATUS
    [Event.sys (Call.sys_open "/dev/bus/usb/002/005") ⟨3, 0, []⟩] 3 true ⟨1, 0⟩
    (by decide) (by decide) (by decide) (by decide)

/-! ## The status line -/

theorem field16_lt (env : Env) (buf : List Nat) (k : Nat) : field16 env buf k < 65536 := by
  unfold field16 byte_at
  split_ifs <;> omega

theorem stdout_chunks_append (a b : List Event) :
    stdout_chunks (a ++ b) = stdout_chunks a ++ stdout_chunks b := by
  induction a with
  | nil => rfl
  | cons e a ih => cases e <;> simp [stdout_chunks, ih]

theorem stdout_chunks_map_out (l : List String) : stdout_chunks (l.map Event.out) = l := by
  induction l with
  | nil => rfl
  | cons x l ih => simp [stdout_chunks, ih]

theorem stdout_chunks_print (usb_level portnum : Int) (w : Nat) :
    stdout_chunks (port_status_print usb_level portnum w) =
      port_status_header portnum w :: (port_status_flags usb_level w ++ ["\n"]) := by
  simp [port_status_print, stdout_chunks, stdout_chunks_append, stdout_chunks_map_out]

theorem port_status_ok (env : Env) (fd usb_level portnum : Int) (st : Sys)
    (hok : (env.oracle st.ncalls).rc ≠ -1) :
    port_status env fd usb_level portnum st =
      (Event.sys (get_status_call fd portnum) (env.oracle st.ncalls) ::
        port_status_print usb_level portnum (status_word env st),
       Outcome.ok ⟨st.ncalls + 1, st.errno⟩) := by
  simp [port_status, syscall, hok, status_word]

theorem port_status_failed (env : Env) (fd usb_level portnum : Int) (st : Sys)
    (hf : (env.oracle st.ncalls).rc = -1) :
    port_status env fd usb_level portnum st =
      ([Event.sys (get_status_call fd portnum) (env.oracle st.ncalls)],
       Outcome.ended fprintf_strerror) := by
  simp [port_status, syscall, hf]

theorem stdout_chunks_port_status (env : Env) (fd usb_level portnum : Int) (st : Sys)
    (hok : (env.oracle st.ncalls).rc ≠ -1) :
    stdout_chunks (port_status env fd usb_level portnum st).1 =
      port_status_header portnum (status_word env st) ::
        (port_status_flags usb_level (status_word env st) ++ ["\n"]) := by
  rw [port_status_ok env fd usb_level portnum st hok]
  exact stdout_chunks_print usb_level portnum (status_word env st)

theorem count_opt (c : Prop) [Decidable c] (l x : String) (h : l ≠ x) :
    (if c then [l] else []).count x = 0 := by
  rw [List.count_eq_zero]
  split_ifs <;> simp [Ne.symm h]

theorem opt_sublist (c : Prop) [Decidable c] (l : String) :
    List.Sublist (if c then [l] else []) [l] := by
  split_ifs <;> simp

theorem flags_count_power_on (usb_level : Int) (w : Nat) :
    (port_status_flags usb_level w).count " Power-On" =
      if usb_level ≤ 2 then (if w &&& 0x0100 ≠ 0 then 1 else 0)
      else if usb_level = 3 then (if w &&& 0x0200 ≠ 0 then 1 else 0) else 0 := by
  unfold port_status_flags
  simp only [List.count_append]
  rw [count_opt _ _ _ (by decide), count_opt _ _ _ (by decide), count_opt _ _ _ (by decide),
    count_opt _ _ _ (by decide), count_opt _ _ _ (by decide)]
  simp only [USB_PORT_STAT_POWER, USB_PORT_STAT_POWER_3]
  split_ifs <;> simp [List.count_append, count_opt]

theorem flags_count_power_off (usb_level : Int) (w : Nat) :
    (port_status_flags usb_level w).count " Power-Off" =
      if usb_level ≤ 2 then (if w &&& 0x0100 ≠ 0 then 0 else 1)
      else if usb_level = 3 then (if w &&& 0x0200 ≠ 0 then 0 else 1) else 0 := by
  unfold port_status_flags
  simp only [List.count_append]
  rw [count_opt _ _ _ (by decide), count_opt _ _ _ (by decide), count_opt _ _ _ (by decide),
    count_opt _ _ _ (by decide), count_opt _ _ _ (by decide)]
  simp only [USB_PORT_STAT_POWER, USB_PORT_STAT_POWER_3]
  split_ifs <;> simp [List.count_append, count_opt]

theorem filter_flag_cons (w bit : Nat) (label : String) (fs : List (Nat × String)) :
    (((bit, label) :: fs).filter fun p => decide (w &&& p.1 ≠ 0)).map Prod.snd =
      (if w &&& bit ≠ 0 then [label] else []) ++
        (fs.filter fun p => decide (w &&& p.1 ≠ 0)).map Prod.snd := by
  by_cases h : w &&& bit ≠ 0
  · rw [List.filter_cons_of_pos (by simpa using h), if_pos h]
    rfl
  · rw [List.filter_cons_of_neg (by simpa using h), if_neg h]
    rfl

theorem common_part_eq (w : Nat) :
    (if w &&& USB_PORT_STAT_RESET ≠ 0 then [" Resetting"] else []) ++
    (if w &&& USB_PORT_STAT_OVERCURRENT ≠ 0 then [" Overcurrent"] else []) ++
    (if w &&& USB_PORT_STAT_SUSPEND ≠ 0 then [" Suspended"] else []) ++
    (if w &&& USB_PORT_STAT_ENABLE ≠ 0 then [" Enabled"] else []) ++
    (if w &&& USB_PORT_STAT_CONNECTION ≠ 0 then [" Connected"] else []) =
      (common_flags.filter fun p => decide (w &&& p.1 ≠ 0)).map Prod.snd := by
  unfold common_flags
  rw [filter_flag_cons, filter_flag_cons, filter_flag_cons, filter_flag_cons, filter_flag_cons]
  simp only [List.filter_nil, List.map_nil, List.append_nil, List.append_assoc]

theorem flags_split (usb_level : Int) (w : Nat) :
    ∃ level_part : List String,
      port_status_flags usb_level w =
        level_part ++ (common_flags.filter fun p => decide (w &&& p.1 ≠ 0)).map Prod.snd
      ∧ (∀ x ∈ level_part, x ∈ [" Indicator", " Test-Mode", " High-Speed", " Low-Speed",
          " Power-On", " Power-Off"])
      ∧ (List.Sublist level_part
            [" Indicator", " Test-Mode", " High-Speed", " Low-Speed", " Power-On"]
          ∨ List.Sublist level_part
            [" Indicator", " Test-Mode", " High-Speed", " Low-Speed", " Power-Off"]) := by
  by_cases h2 : usb_level ≤ 2
  · refine ⟨(if w &&& USB_PORT_STAT_INDICATOR ≠ 0 then [" Indicator"] else []) ++
     (if w &&& USB_PORT_STAT_TEST ≠ 0 then [" Test-Mode"] else []) ++
     (if w &&& USB_PORT_STAT_HIGH_SPEED ≠ 0 then [" High-Speed"] else []) ++
     (if w &&& USB_PORT_STAT_LOW_SPEED ≠ 0 then [" Low-Speed"] else []) ++
     (if w &&& USB_PORT_STAT_POWER ≠ 0 then [" Power-On"] else [" Power-Off"]), ?_, ?_, ?_⟩
    · rw [← common_part_eq]
      simp only [port_status_flags, if_pos h2, List.append_assoc]
    · intro x hx
      simp only [List.mem_append] at hx
      rcases hx with (((hx | hx) | hx) | hx) | hx <;> split_ifs at hx <;> simp_all
    · by_cases hp : w &&& USB_PORT_STAT_POWER ≠ 0
      · left
        rw [if_pos hp]
        exact List.Sublist.append (List.Sublist.append (List.Sublist.append
          (List.Sublist.append (opt_sublist _ _) (opt_sublist _ _)) (opt_sublist _ _))
          (opt_sublist _ _)) (List.Sublist.refl _)
      · right
        rw [if_neg hp]
        exact List.Sublist.append (List.Sublist.append (List.Sublist.append
          (List.Sublist.append (opt_sublist _ _) (opt_sublist _ _)) (opt_sublist _ _))
          (opt_sublist _ _)) (List.Sublist.refl _)
  · by_cases h3 : usb_level = 3
    · refine ⟨(if w &&& USB_PORT_STAT_POWER_3 ≠ 0 then [" Power-On"] else [" Power-Off"]),
        ?_, ?_, ?_⟩
      · rw [← common_part_eq]
        simp only [port_status_flags, if_neg h2, if_pos h3, List.append_assoc]
      · intro x hx
        split_ifs at hx <;> simp_all
      · by_cases hp : w &&& USB_PORT_STAT_POWER_3 ≠ 0
        · left
          rw [if_pos hp]
          exact List.Sublist.append (List.nil_sublist
            [" Indicator", " Test-Mode", " High-Speed", " Low-Speed"]) (List.Sublist.refl _)
        · right
          rw [if_neg hp]
          exact List.Sublist.append (List.nil_sublist
            [" Indicator", " Test-Mode", " High-Speed", " Low-Speed"]) (List.Sublist.refl _)
    · refine ⟨[], ?_, ?_, ?_⟩
      · rw [← common_part_eq]
        simp only [port_status_flags, if_neg h2, if_neg h3, List.append_assoc]
      · intro x hx
        simp at hx
      · left
        exact List.nil_sublist _

theorem common_sublist (w : Nat) :
    List.Sublist ((common_flags.filter fun p => decide (w &&& p.1 ≠ 0)).map Prod.snd)
      [" Resetting", " Overcurrent", " Suspended", " Enabled", " Connected"] := by
  have h : [" Resetting", " Overcurrent", " Suspended", " Enabled", " Connected"] =
      common_flags.map Prod.snd := rfl
  rw [h]
  exact List.Sublist.map _ (List.filter_sublist _)

theorem flags_sublist_order (usb_level : Int) (w : Nat) :
    List.Sublist (port_status_flags usb_level w) (label_order " Power-On") ∨
    List.Sublist (port_status_flags usb_level w) (label_order " Power-Off") := by
  obtain ⟨lp, heq, _, hsub⟩ := flags_split usb_level w
  rw [heq]
  rcases hsub with h | h
  · left
    exact List.Sublist.append h (common_sublist w)
  · right
    exact List.Sublist.append h (common_sublist w)

theorem flags_nodup (usb_level : Int) (w : Nat) : (port_status_flags usb_level w).Nodup := by
  rcases flags_sublist_order usb_level w with h | h
  · exact List.Nodup.sublist h (by decide)
  · exact List.Nodup.sublist h (by decide)

theorem common_flag_mem (usb_level : Int) (w : Nat) (bit : Nat) (label : String)
    (hm : (bit, label) ∈ common_flags) :
    label ∈ port_status_flags usb_level w ↔ w &&& bit ≠ 0 := by
  simp only [common_flags, List.mem_cons, List.mem_singleton, Prod.mk.injEq,
    List.not_mem_nil, or_false] at hm
  rcases hm with ⟨rfl, rfl⟩ | ⟨rfl, rfl⟩ | ⟨rfl, rfl⟩ | ⟨rfl, rfl⟩ | ⟨rfl, rfl⟩ <;>
    simp [port_status_flags] <;> split_ifs <;> simp_all

/-- C2: after a successful status query with status word `w`, the chunks
written to standard output are the header, the flag labels and the newline.
The labels form a sublist of the fixed order Indicator, Test-Mode, High-Speed,
Low-Speed, Power-On or Power-Off, Resetting, Overcurrent, Suspended, Enabled,
Connected; they are a level-dependent part followed by exactly those of the
five common flags whose bit is set in `w`; no label is repeated; and a second
successful query for the same port at the same level that finds the same
status word prints the same chunks, whatever the environment, descriptor and
state. -/
theorem flag_order_is_fixed (env env2 : Env) (fd fd2 usb_level portnum : Int)
    (st st2 : Sys) (w : Nat)
    (hok : (env.oracle st.ncalls).rc ≠ -1) (hw : status_word env st = w)
    (hok2 : (env2.oracle st2.ncalls).rc ≠ -1) (hw2 : status_word env2 st2 = w) :
    stdout_chunks (port_status env fd usb_level portnum st).1 =
      port_status_header portnum w :: (port_status_flags usb_level w ++ ["\n"])
    ∧ (List.Sublist (port_status_flags usb_level w) (label_order " Power-On") ∨
       List.Sublist (port_status_flags usb_level w) (label_order " Power-Off"))
    ∧ (∃ level_part : List String,
        port_status_flags usb_level w =
          level_part ++ (common_flags.filter fun p => decide (w &&& p.1 ≠ 0)).map Prod.snd
        ∧ ∀ x ∈ level_part, x ∈ [" Indicator", " Test-Mode", " High-Speed", " Low-Speed",
            " Power-On", " Power-Off"])
    ∧ (∀ bit label, (bit, label) ∈ common_flags →
        (label ∈ port_status_flags usb_level w ↔ w &&& bit ≠ 0))
    ∧ (port_status_flags usb_level w).Nodup
    ∧ stdout_chunks (port_status env2 fd2 usb_level portnum st2).1 =
        stdout_chunks (port_status env fd usb_level portnum st).1 := by
  have h1 := stdout_chunks_port_status env fd usb_level portnum st hok
  have h2 := stdout_chunks_port_status env2 fd2 usb_level portnum st2 hok2
  rw [hw] at h1
  rw [hw2] at h2
  obtain ⟨lp, heq, hlp, _⟩ := flags_split usb_level w
  exact ⟨h1, flags_sublist_order usb_level w, ⟨lp, heq, hlp⟩,
    fun bit label hm => common_flag_mem usb_level w bit label hm,
    flags_nodup usb_level w, by rw [h1, h2]⟩

theorem flag_order_is_fixed_witness :
    stdout_chunks (port_status sample_env 3 2 1 ⟨3, 0⟩).1 =
      port_status_header 1 0x0103 :: (port_status_flags 2 0x0103 ++ ["\n"])
    ∧ (List.Sublist (port_status_flags 2 0x0103) (label_order " Power-On") ∨
       List.Sublist (port_status_flags 2 0x0103) (label_order " Power-Off"))
    ∧ (∃ level_part : List String,
        port_status_flags 2 0x0103 =
          level_part ++ (common_flags.filter fun p => decide (0x0103 &&& p.1 ≠ 0)).map Prod.snd
        ∧ ∀ x ∈ level_part, x ∈ [" Indicator", " Test-Mode", " High-Speed", " Low-Speed",
            " Power-On", " Power-Off"])
    ∧ (∀ bit label, (bit, label) ∈ common_flags →
        (label ∈ port_status_flags 2 0x0103 ↔ 0x0103 &&& bit ≠ 0))
    ∧ (port_status_flags 2 0x0103).Nodup
    ∧ stdout_chunks (port_status (sample_env.with_reply 0 ⟨7, 0, [3, 1]⟩) 9 2 1 ⟨0, 5⟩).1 =
        stdout_chunks (port_status sample_env 3 2 1 ⟨3, 0⟩).1 :=
  flag_order_is_fixed sample_env (sample_env.with_reply 0 ⟨7, 0, [3, 1]⟩) 3 9 2 1
    ⟨3, 0⟩ ⟨0, 5⟩ 0x0103 (by decide) (by decide) (by decide) (by decide)

/-! ## Successful set-up -/

theorem open_device_some (env : Env) (busnum devnum : Int) (st st1 : Sys)
    (opens : List Event) (x : Int × Bool)
    (h : open_device env busnum devnum st = (opens, Outcome.ok x, st1)) :
    ∀ e ∈ opens, ∃ path r, e = Event.sys (Call.sys_open path) r := by
  unfold open_device at h
  dsimp only at h
  split_ifs at h <;> simp only [Prod.mk.injEq, reduceCtorEq, and_false, false_and] at h
  · obtain ⟨rfl, _, _⟩ := h
    intro e he
    simp only [List.mem_cons, List.mem_singleton, List.not_mem_nil, or_false] at he
    rcases he with rfl | rfl <;> exact ⟨_, _, rfl⟩
  · obtain ⟨rfl, _, _⟩ := h
    intro e he
    simp only [List.mem_cons, List.mem_singleton, List.not_mem_nil, or_false] at he
    subst he
    exact ⟨_, _, rfl⟩

theorem byte_at_le (buf : List Nat) (k : Nat) : byte_at buf k ≤ 255 := by
  unfold byte_at
  omega

theorem hub_identify_some (env : Env) (busnum devnum fd : Int) (bus_endian : Bool)
    (st st1 : Sys) (evs : List Event) (hub : Hub)
    (h : hub_identify env busnum devnum fd bus_endian st = (evs, Outcome.ok hub, st1)) :
    hub.numports ≤ 255 ∧ hub.fd = fd ∧
    ∃ r1 r2, evs = [Event.sys (Call.sys_read hub.fd USB_DT_DEVICE_SIZE) r1,
      Event.sys (hub_descriptor_call hub.fd) r2] := by
  unfold hub_identify at h
  dsimp only at h
  split_ifs at h <;> simp only [Prod.mk.injEq, reduceCtorEq, and_false, false_and] at h
  all_goals
    obtain ⟨rfl, hh, _⟩ := h
    simp only [Outcome.ok.injEq] at hh
    subst hh
    exact ⟨byte_at_le _ _, rfl, _, _, rfl⟩

theorem hub_setup_some (env : Env) (busnum devnum : Int) (st st1 : Sys)
    (evs : List Event) (hub : Hub)
    (h : hub_setup env busnum devnum st = (evs, Outcome.ok hub, st1)) :
    hub.numports ≤ 255 ∧
    ∃ opens : List Event, (∀ e ∈ opens, ∃ path r, e = Event.sys (Call.sys_open path) r) ∧
      ∃ r1 r2, evs = opens ++ [Event.sys (Call.sys_read hub.fd USB_DT_DEVICE_SIZE) r1,
        Event.sys (hub_descriptor_call hub.fd) r2] := by
  unfold hub_setup at h
  rcases hod : open_device env busnum devnum st with ⟨opens, ⟨fd, be⟩ | status, st2⟩
  · rw [hod] at h
    simp only [Prod.mk.injEq] at h
    obtain ⟨h1, h2⟩ := h
    have h3 : hub_identify env busnum devnum fd be st2 =
        ((hub_identify env busnum devnum fd be st2).1, Outcome.ok hub, st1) := by
      rw [← h2]
    obtain ⟨hn, _, r1, r2, hev⟩ := hub_identify_some env busnum devnum fd be st2 st1 _ hub h3
    refine ⟨hn, opens, open_device_some env busnum devnum st st2 opens (fd, be) hod, r1, r2, ?_⟩
    rw [← h1, hev]
  · rw [hod] at h
    simp at h

theorem port_indices_append (a b : List Event) :
    port_indices (a ++ b) = port_indices a ++ port_indices b := by
  induction a with
  | nil => rfl
  | cons e a ih =>
    rcases e with ⟨c, r⟩ | s | s
    · cases c with
      | ioctl_control fd t q v i n o =>
        by_cases hp : is_port_transfer (Event.sys (Call.ioctl_control fd t q v i n o) r) = true
        · simp [port_indices, hp, ih]
        · simp [port_indices, hp, ih]
      | _ => simp [port_indices, ih]
    · simp [port_indices, ih]
    · simp [port_indices, ih]

theorem power_requests_append (a b : List Event) :
    power_requests (a ++ b) = power_requests a ++ power_requests b := by
  induction a with
  | nil => rfl
  | cons e a ih =>
    rcases e with ⟨c, r⟩ | s | s
    · cases c with
      | ioctl_control fd t q v i n o =>
        by_cases hp : t = (USB_DIR_OUT ||| USB_TYPE_CLASS ||| USB_RECIP_OTHER)
        · simp [power_requests, hp, ih]
        · simp [power_requests, hp, ih]
      | _ => simp [power_requests, ih]
    · simp [power_requests, ih]
    · simp [power_requests, ih]

theorem hub_setup_quiet (env : Env) (busnum devnum : Int) (st st1 : Sys)
    (evs : List Event) (hub : Hub)
    (h : hub_setup env busnum devnum st = (evs, Outcome.ok hub, st1)) :
    (∀ e ∈ evs, is_port_transfer e = false ∧ is_disconnect e = false) ∧
    stdout_chunks evs = [] ∧ port_indices evs = [] ∧ power_requests evs = [] := by
  obtain ⟨_, opens, hopens, r1, r2, rfl⟩ := hub_setup_some env busnum devnum st st1 evs hub h
  have key : ∀ l : List Event, (∀ e ∈ l, ∃ path r, e = Event.sys (Call.sys_open path) r) →
      (∀ e ∈ l, is_port_transfer e = false ∧ is_disconnect e = false) ∧
      stdout_chunks l = [] ∧ port_indices l = [] ∧ power_requests l = [] := by
    intro l
    induction l with
    | nil => intro _; simp [stdout_chunks, port_indices, power_requests]
    | cons e l ih =>
      intro hl
      obtain ⟨path, r, rfl⟩ := hl e (List.mem_cons_self _ _)
      obtain ⟨i1, i2, i3, i4⟩ := ih (fun e he => hl e (List.mem_cons_of_mem _ he))
      refine ⟨?_, ?_, ?_, ?_⟩
      · intro e he
        rcases List.mem_cons.mp he with rfl | he
        · exact ⟨rfl, rfl⟩
        · exact i1 e he
      · simpa [stdout_chunks] using i2
      · simpa [port_indices] using i3
      · simpa [power_requests] using i4
  obtain ⟨k1, k2, k3, k4⟩ := key opens hopens
  refine ⟨?_, ?_, ?_, ?_⟩
  · intro e he
    rcases List.mem_append.mp he with he | he
    · exact k1 e he
    · simp only [List.mem_cons, List.mem_singleton, List.not_mem_nil, or_false] at he
      rcases he with rfl | rfl <;> exact ⟨rfl, rfl⟩
  · rw [stdout_chunks_append, k2]; rfl
  · rw [port_indices_append, k3]; rfl
  · rw [power_requests_append, k4]; rfl

/-! ## The power loop, one pair at a time -/

theorem power_loop_cons_ok (env : Env) (hub : Hub) (a b : String) (rest : List String)
    (st st1 : Sys) (evs : List Event)
    (h : power_step env hub a b st = (evs, Outcome.ok st1)) :
    power_loop env hub (a :: b :: rest) st =
      (evs ++ (power_loop env hub rest st1).1, (power_loop env hub rest st1).2) := by
  simp only [power_loop, h]

theorem power_loop_cons_ended (env : Env) (hub : Hub) (a b : String) (rest : List String)
    (st : Sys) (evs : List Event) (status : Status)
    (h : power_step env hub a b st = (evs, Outcome.ended status)) :
    power_loop env hub (a :: b :: rest) st = (evs, Outcome.ended status) := by
  simp only [power_loop, h]

theorem power_step_bad_port (env : Env) (hub : Hub) (a b : String) (st : Sys)
    (h : atoi a < 1 ∨ atoi a > hub.numports) :
    power_step env hub a b st =
      ([Event.err ("Invalid port number: " ++ fmt_d (atoi a) ++ "\n")], Outcome.ok st) := by
  simp [power_step, h]

theorem power_step_bad_level (env : Env) (hub : Hub) (a b : String) (st : Sys)
    (h : ¬ (atoi a < 1 ∨ atoi a > hub.numports)) (hon : b ≠ "on") (hoff : b ≠ "off") :
    power_step env hub a b st =
      ([Event.err ("Invalid port power level: " ++ b ++ "\n)")], Outcome.ok st) := by
  simp [power_step, h, hon, hoff]

theorem power_step_transfer (env : Env) (hub : Hub) (a b : String) (st : Sys)
    (h : ¬ (atoi a < 1 ∨ atoi a > hub.numports)) (hb : b = "on" ∨ b = "off") :
    power_step env hub a b st =
      power_transfer env hub
        (if b = "on" then USB_REQ_SET_FEATURE else USB_REQ_CLEAR_FEATURE) (atoi a) st := by
  rcases hb with rfl | rfl
  · simp [power_step, h]
  · simp [power_step, h]

theorem power_transfer_failed (env : Env) (hub : Hub) (req : Nat) (q : Int) (st : Sys)
    (hf : (env.oracle st.ncalls).rc = -1) :
    power_transfer env hub req q st =
      ([Event.sys (power_call hub.fd req q) (env.oracle st.ncalls)],
       Outcome.ended fprintf_strerror) := by
  simp [power_transfer, syscall, hf]

theorem power_transfer_ok (env : Env) (hub : Hub) (req : Nat) (q : Int) (st : Sys)
    (hok : (env.oracle st.ncalls).rc ≠ -1) :
    power_transfer env hub req q st =
      (Event.sys (power_call hub.fd req q) (env.oracle st.ncalls) ::
        (port_status env hub.fd hub.usb_level q ⟨st.ncalls + 1, st.errno⟩).1,
       (port_status env hub.fd hub.usb_level q ⟨st.ncalls + 1, st.errno⟩).2) := by
  simp [power_transfer, syscall, hok]

/-! ## Port indices -/

theorem port_indices_out (l : List String) (tail : List Event) :
    port_indices (l.map Event.out ++ tail) = port_indices tail := by
  induction l with
  | nil => rfl
  | cons x l ih => simpa [port_indices] using ih

theorem port_indices_power_call (fd : Int) (req : Nat) (q : Int) (r : Reply)
    (evs : List Event) :
    port_indices (Event.sys (power_call fd req q) r :: evs) =
      (q % 65536).toNat :: port_indices evs := rfl

theorem port_indices_port_status (env : Env) (fd usb_level q : Int) (st : Sys) :
    port_indices (port_status env fd usb_level q st).1 = [(q % 65536).toNat] := by
  by_cases hf : (env.oracle st.ncalls).rc = -1
  · rw [port_status_failed env fd usb_level q st hf]
    rfl
  · rw [port_status_ok env fd usb_level q st hf]
    have h := port_indices_out (port_status_flags usb_level (status_word env st))
      [Event.out "\n"]
    show (q % 65536).toNat :: port_indices (List.map Event.out
      (port_status_flags usb_level (status_word env st)) ++ [Event.out "\n"]) = _
    rw [h]
    rfl

theorem port_indices_status_loop (env : Env) (fd usb_level : Int) :
    ∀ (n : Nat) (p : Int) (st : Sys),
      ∀ idx ∈ port_indices (status_loop env fd usb_level n p st).1,
        ∃ q : Int, p ≤ q ∧ q < p + n ∧ idx = (q % 65536).toNat := by
  intro n
  induction n with
  | zero => intro p st idx h; simp [status_loop, port_indices] at h
  | succ n ih =>
    intro p st idx h
    have hp := port_indices_port_status env fd usb_level p st
    rcases hps : port_status env fd usb_level p st with ⟨evs, st1 | status⟩
    · rw [hps] at hp
      simp only [status_loop, hps, port_indices_append, hp, List.mem_append,
        List.mem_singleton] at h
      rcases h with rfl | h
      · exact ⟨p, le_refl _, by omega, rfl⟩
      · obtain ⟨q, h1, h2, h3⟩ := ih _ _ idx h
        exact ⟨q, by omega, by push_cast; omega, h3⟩
    · rw [hps] at hp
      simp only [status_loop, hps, hp, List.mem_singleton] at h
      exact ⟨p, le_refl _, by omega, h⟩

theorem port_indices_power_step (env : Env) (hub : Hub) (a b : String) (st : Sys) :
    ∀ idx ∈ port_indices (power_step env hub a b st).1,
      ∃ q : Int, ¬ (q < 1 ∨ q > hub.numports) ∧ idx = (q % 65536).toNat := by
  intro idx h
  by_cases hr : atoi a < 1 ∨ atoi a > hub.numports
  · rw [power_step_bad_port env hub a b st hr] at h
    simp [port_indices] at h
  · by_cases hb : b = "on" ∨ b = "off"
    · rw [power_step_transfer env hub a b st hr hb] at h
      by_cases hf : (env.oracle st.ncalls).rc = -1
      · rw [power_transfer_failed env hub _ _ st hf, port_indices_power_call] at h
        have h2 : idx = (atoi a % 65536).toNat := by
          simpa [port_indices] using h
        exact ⟨atoi a, hr, h2⟩
      · rw [power_transfer_ok env hub _ _ st hf, port_indices_power_call,
          port_indices_port_status] at h
        have h2 : idx = (atoi a % 65536).toNat := by
          simpa using h
        exact ⟨atoi a, hr, h2⟩
    · have hon : b ≠ "on" := fun h => hb (Or.inl h)
      have hoff : b ≠ "off" := fun h => hb (Or.inr h)
      rw [power_step_bad_level env hub a b st hr hon hoff] at h
      simp [port_indices] at h

theorem port_indices_power_loop (env : Env) (hub : Hub) :
    ∀ (args : List String) (st : Sys),
      ∀ idx ∈ port_indices (power_loop env hub args st).1,
        ∃ q : Int, ¬ (q < 1 ∨ q > hub.numports) ∧ idx = (q % 65536).toNat
  | [], st, idx, h => by simp [power_loop, port_indices] at h
  | [_], st, idx, h => by simp [power_loop, port_indices] at h
  | a :: b :: rest, st, idx, h => by
    have hstep := port_indices_power_step env hub a b st
    rcases hps : power_step env hub a b st with ⟨evs, st1 | status⟩
    · rw [hps] at hstep
      rw [power_loop_cons_ok env hub a b rest st st1 evs hps, port_indices_append,
        List.mem_append] at h
      rcases h with h | h
      · exact hstep idx h
      · exact port_indices_power_loop env hub rest st1 idx h
    · rw [hps] at hstep
      rw [power_loop_cons_ended env hub a b rest st evs status hps] at h
      exact hstep idx h

theorem do_status_events (env : Env) (hub : Hub) (st : Sys) :
    (do_status env hub st).1 =
      (status_loop env hub.fd hub.usb_level hub.numports 1 st).1 := by
  unfold do_status
  rcases status_loop env hub.fd hub.usb_level hub.numports 1 st with ⟨evs, st1 | status⟩ <;> rfl

theorem do_power_events (env : Env) (hub : Hub) (args : List String) (st : Sys)
    (hnf : ¬ ((syscall env st).1.rc = -1 ∧ (syscall env st).2.errno ≠ ENODATA)) :
    (do_power env hub args st).1 =
      Event.sys (Call.ioctl_usb hub.fd 0 USBDEVFS_DISCONNECT) (syscall env st).1 ::
        (power_loop env hub args (syscall env st).2).1 := by
  unfold do_power
  simp only [if_neg hnf]
  rcases power_loop env hub args (syscall env st).2 with ⟨evs, st1 | status⟩ <;> rfl

theorem port_indices_main (env : Env) (argv : List String) (busnum devnum : Int)
    (action : Action) (evs : List Event) (hub : Hub) (st : Sys)
    (hv : validate argv = some (busnum, devnum, action))
    (hs : hub_setup env busnum devnum ⟨0, 0⟩ = (evs, Outcome.ok hub, st)) :
    ∀ idx ∈ port_indices (main env argv).1, 1 ≤ idx ∧ idx ≤ hub.numports := by
  obtain ⟨hn, _⟩ := hub_setup_some env busnum devnum ⟨0, 0⟩ st evs hub hs
  obtain ⟨_, _, hq, _⟩ := hub_setup_quiet env busnum devnum ⟨0, 0⟩ st evs hub hs
  intro idx h
  cases action with
  | DO_STATUS =>
    simp only [main, hv, hs, do_status_events, port_indices_append, hq, List.nil_append] at h
    obtain ⟨q, h1, h2, rfl⟩ := port_indices_status_loop env _ _ _ _ _ idx h
    omega
  | DO_BIND =>
    simp only [main, hv, hs, do_bind, port_indices_append, hq, List.nil_append] at h
    split_ifs at h <;> simp [port_indices] at h
  | DO_POWER =>
    simp only [main, hv, hs, port_indices_append, hq, List.nil_append] at h
    by_cases hnf : (syscall env st).1.rc = -1 ∧ (syscall env st).2.errno ≠ ENODATA
    · simp only [do_power, if_pos hnf] at h
      simp [port_indices] at h
    · rw [do_power_events env hub _ st hnf] at h
      have h2 : idx ∈ port_indices (power_loop env hub (List.drop 3 argv) (syscall env st).2).1 := h
      obtain ⟨q, h1, rfl⟩ := port_indices_power_loop env hub _ _ idx h2
      omega

/-- C3: once the set-up has produced the port count, (1) a pair whose port
argument converts to a number below 1 or above the port count contributes
exactly the message "Invalid port number: n" on the error stream, no system
call, and the loop goes on with the following pairs in the same state; (2)
every per-port control transfer of the run (status loop and power batch) has
its `wIndex` between 1 and the port count. -/
theorem invalid_port_is_skipped (env : Env) (argv : List String) (busnum devnum : Int)
    (action : Action) (evs : List Event) (hub : Hub) (st : Sys)
    (hv : validate argv = some (busnum, devnum, action))
    (hs : hub_setup env busnum devnum ⟨0, 0⟩ = (evs, Outcome.ok hub, st)) :
    (∀ (port_arg power_arg : String) (rest : List String) (st1 : Sys),
      (atoi port_arg < 1 ∨ atoi port_arg > hub.numports) →
      power_loop env hub (port_arg :: power_arg :: rest) st1 =
        (Event.err ("Invalid port number: " ++ fmt_d (atoi port_arg) ++ "\n") ::
          (power_loop env hub rest st1).1, (power_loop env hub rest st1).2))
    ∧ (∀ idx ∈ port_indices (main env argv).1, 1 ≤ idx ∧ idx ≤ hub.numports) := by
  refine ⟨?_, port_indices_main env argv busnum devnum action evs hub st hv hs⟩
  intro port_arg power_arg rest st1 hr
  exact power_loop_cons_ok env hub port_arg power_arg rest st1 st1 _
    (power_step_bad_port env hub port_arg power_arg st1 hr)

theorem invalid_port_is_skipped_witness :
    (∀ (port_arg power_arg : String) (rest : List String) (st1 : Sys),
      (atoi port_arg < 1 ∨ atoi port_arg > (Hub.mk 3 2 4).numports) →
      power_loop sample_env ⟨3, 2, 4⟩ (port_arg :: power_arg :: rest) st1 =
        (Event.err ("Invalid port number: " ++ fmt_d (atoi port_arg) ++ "\n") ::
          (power_loop sample_env ⟨3, 2, 4⟩ rest st1).1,
          (power_loop sample_env ⟨3, 2, 4⟩ rest st1).2))
    ∧ (∀ idx ∈ port_indices
          (main sample_env ["hubpower", "2:5", "power", "9", "on", "1", "off"]).1,
        1 ≤ idx ∧ idx ≤ (Hub.mk 3 2 4).numports) :=
  invalid_port_is_skipped sample_env ["hubpower", "2:5", "power", "9", "on", "1", "off"]
    2 5 Action.DO_POWER sample_setup_events ⟨3, 2, 4⟩ ⟨3, 0⟩ (by decide) (by decide)

/-- C4 (as stated, refuted): for the pair `0 foo` the token is neither "on"
nor "off", yet no "Invalid port power level" message is written: the port
check comes first and the only message is "Invalid port number: 0". -/
theorem invalid_level_behind_invalid_port :
    "foo" ≠ "on" ∧ "foo" ≠ "off" ∧
    main sample_env ["hubpower", "2:5", "power", "0", "foo"] =
      ([Event.sys (Call.sys_open "/dev/bus/usb/002/005") ⟨3, 0, []⟩,
        Event.sys (Call.sys_read 3 18) ⟨18, 0, [18, 1, 0, 2, 9, 0, 0, 64]⟩,
        Event.sys (hub_descriptor_call 3) ⟨7, 0, [9, 0x29, 4, 0, 0, 50, 100]⟩,
        Event.sys (Call.ioctl_usb 3 0 USBDEVFS_DISCONNECT) ⟨0, 0, [0x03, 0x01, 0, 0]⟩,
        Event.err "Invalid port number: 0\n"], Status.exited 0) ∧
    Event.err "Invalid port power level: foo\n)" ∉
      (main sample_env ["hubpower", "2:5", "power", "0", "foo"]).1 := by
  decide

/-- C4 (amended): a pair whose port is within 1..numports and whose power
token is neither exactly "on" nor exactly "off" contributes exactly the
message "Invalid port power level: token" on the error stream, no system call,
and the loop goes on with the following pairs in the same state. -/
theorem invalid_level_is_skipped (env : Env) (hub : Hub) (port_arg power_arg : String)
    (rest : List String) (st1 : Sys)
    (hlo : 1 ≤ atoi port_arg) (hhi : atoi port_arg ≤ hub.numports)
    (hon : power_arg ≠ "on") (hoff : power_arg ≠ "off") :
    power_loop env hub (port_arg :: power_arg :: rest) st1 =
      (Event.err ("Invalid port power level: " ++ power_arg ++ "\n)") ::
        (power_loop env hub rest st1).1, (power_loop env hub rest st1).2) := by
  have hr : ¬ (atoi port_arg < 1 ∨ atoi port_arg > hub.numports) := by omega
  exact power_loop_cons_ok env hub port_arg power_arg rest st1 st1 _
    (power_step_bad_level env hub port_arg power_arg st1 hr hon hoff)

theorem invalid_level_is_skipped_witness :
    power_loop sample_env ⟨3, 2, 4⟩ ("2" :: "Off" :: ["1", "on"]) ⟨4, 0⟩ =
      (Event.err ("Invalid port power level: " ++ "Off" ++ "\n)") ::
        (power_loop sample_env ⟨3, 2, 4⟩ ["1", "on"] ⟨4, 0⟩).1,
        (power_loop sample_env ⟨3, 2, 4⟩ ["1", "on"] ⟨4, 0⟩).2) :=
  invalid_level_is_skipped sample_env ⟨3, 2, 4⟩ "2" "Off" ["1", "on"] ⟨4, 0⟩
    (by decide) (by decide) (by decide) (by decide)

/-! ## Number formatting -/

theorem toDigitsCore_step (b fuel n : Nat) (ds : List Char) (hf : 0 < fuel) :
    Nat.toDigitsCore b fuel n ds =
      if n / b = 0 then Nat.digitChar (n % b) :: ds
      else Nat.toDigitsCore b (fuel - 1) (n / b) (Nat.digitChar (n % b) :: ds) := by
  cases fuel with
  | zero => omega
  | succ f => simp [Nat.toDigitsCore]

theorem digitChar_big (k : Nat) (hk : 16 ≤ k) : Nat.digitChar k = '*' := by
  unfold Nat.digitChar
  repeat rw [if_neg (by omega)]

theorem digitChar_small : ∀ k < 16,
    Nat.digitChar k ∈ hex_digits ∧ Nat.digitChar k ∈ number_chars := by
  decide

theorem toDigitsCore_chars (b : Nat) : ∀ (fuel n : Nat) (ds : List Char),
    ∀ c ∈ Nat.toDigitsCore b fuel n ds, c ∈ ds ∨ ∃ k, c = Nat.digitChar k := by
  intro fuel
  induction fuel with
  | zero => intro n ds c h; left; simpa [Nat.toDigitsCore] using h
  | succ f ih =>
    intro n ds c h
    rw [toDigitsCore_step b (f + 1) n ds (by omega)] at h
    split_ifs at h
    · rcases List.mem_cons.mp h with rfl | h
      · exact Or.inr ⟨_, rfl⟩
      · exact Or.inl h
    · rcases ih _ _ c h with h | h
      · rcases List.mem_cons.mp h with rfl | h
        · exact Or.inr ⟨_, rfl⟩
        · exact Or.inl h
      · exact Or.inr h

theorem digitChar_mem (k : Nat) : Nat.digitChar k ∈ number_chars := by
  by_cases hk : k < 16
  · exact (digitChar_small k hk).2
  · rw [digitChar_big k (by omega)]
    decide

theorem toDigits_chars (b n : Nat) : ∀ c ∈ Nat.toDigits b n, c ∈ number_chars := by
  intro c h
  rcases toDigitsCore_chars b _ _ _ _ h with h | ⟨k, rfl⟩
  · simp at h
  · exact digitChar_mem k

theorem pad_left_chars (width : Nat) (c : Char) (l : List Char)
    (hc : c ∈ number_chars) (hl : ∀ d ∈ l, d ∈ number_chars) :
    ∀ d ∈ pad_left width c l, d ∈ number_chars := by
  intro d h
  rcases List.mem_append.mp h with h | h
  · rw [List.eq_of_mem_replicate h]
    exact hc
  · exact hl d h

theorem fmt_d_chars (n : Int) : ∀ c ∈ (fmt_d n).data, c ∈ number_chars := by
  unfold fmt_d
  split_ifs
  · intro c h
    rcases List.mem_cons.mp h with rfl | h
    · decide
    · exact toDigits_chars _ _ c h
  · exact toDigits_chars _ _

theorem fmt_2d_chars (n : Int) : ∀ c ∈ (fmt_2d n).data, c ∈ number_chars :=
  pad_left_chars 2 ' ' _ (by decide) (fmt_d_chars n)

theorem fmt_04x_chars (w : Nat) : ∀ c ∈ (fmt_04x w).data, c ∈ number_chars :=
  pad_left_chars 4 '0' _ (by decide) (toDigits_chars 16 w)

theorem header_chars (q : Int) (w : Nat) :
    ∃ tl, (port_status_header q w).data = 'P' :: tl ∧
      ∀ c ∈ tl, c ∈ "ort status:".data ++ number_chars := by
  refine ⟨"ort ".data ++ (fmt_2d q).data ++ " status: ".data ++ (fmt_04x w).data ++ " ".data,
    ?_, ?_⟩
  · simp [port_status_header, String.data_append]
  · intro c h
    simp only [List.mem_append] at h
    rcases h with (((h | h) | h) | h) | h
    · exact List.mem_append_left _ (by revert h; revert c; decide)
    · exact List.mem_append_right _ (fmt_2d_chars q c h)
    · exact List.mem_append_left _ (by revert h; revert c; decide)
    · exact List.mem_append_right _ (fmt_04x_chars w c h)
    · exact List.mem_append_right _ (by revert h; revert c; decide)

theorem occurrences_second (p q : Char) (pat : List Char) :
    ∀ (l rest : List Char) (c : Char), q ∉ l → rest.head? ≠ some q →
      occurrences (p :: q :: pat) (c :: l ++ rest) = occurrences (p :: q :: pat) rest := by
  intro l
  induction l with
  | nil =>
    intro rest c _ hr
    cases rest with
    | nil => simp [occurrences, List.isPrefixOf]
    | cons d rest =>
      have hd : q ≠ d := fun e => hr (by simp [e])
      simp [occurrences, List.isPrefixOf, hd]
  | cons d l ih =>
    intro rest c h hr
    have hd : q ≠ d := fun e => h (e ▸ List.mem_cons_self _ _)
    have hl : q ∉ l := fun e => h (List.mem_cons_of_mem _ e)
    have := ih rest d hl hr
    simp only [List.cons_append] at this ⊢
    rw [← this]
    simp [occurrences, List.isPrefixOf, hd]

theorem occurrences_label (x : String) (hx : x = " Power-On" ∨ x = " Power-Off") :
    ∀ f ∈ all_labels, ∀ rest : List Char,
      occurrences x.data (f.data ++ rest) = (if f = x then 1 else 0) + occurrences x.data rest := by
  intro f hf rest
  simp only [all_labels, List.mem_cons, List.mem_singleton, List.not_mem_nil, or_false] at hf
  rcases hx with rfl | rfl <;>
  rcases hf with rfl | rfl | rfl | rfl | rfl | rfl | rfl | rfl | rfl | rfl | rfl <;>
  simp [occurrences, List.isPrefixOf] 
  

theorem occurrences_flags (x : String) (hx : x = " Power-On" ∨ x = " Power-Off") :
    ∀ (fs : List String) (rest : List Char), (∀ f ∈ fs, f ∈ all_labels) →
      occurrences x.data ((fs.map String.data).flatten ++ rest) =
        fs.count x + occurrences x.data rest := by
  intro fs
  induction fs with
  | nil => intro rest _; simp
  | cons f fs ih =>
    intro rest h
    rw [List.map_cons, List.flatten_cons, List.append_assoc,
      occurrences_label x hx f (h f (List.mem_cons_self _ _)),
      ih rest (fun g hg => h g (List.mem_cons_of_mem _ hg)), List.count_cons]
    by_cases hfx : f = x
    · simp [hfx]; omega
    · simp [hfx]

theorem flags_in_all_labels (usb_level : Int) (w : Nat) :
    ∀ f ∈ port_status_flags usb_level w, f ∈ all_labels := by
  have h : (∀ f ∈ label_order " Power-On", f ∈ all_labels) ∧
      (∀ f ∈ label_order " Power-Off", f ∈ all_labels) := by decide
  intro f hf
  rcases flags_sublist_order usb_level w with hs | hs
  · exact h.1 f (hs.subset hf)
  · exact h.2 f (hs.subset hf)

theorem body_head (fs : List String) (h : ∀ f ∈ fs, f ∈ all_labels) :
    ((fs.map String.data).flatten ++ ['\n']).head? ≠ some 'P' := by
  have hl : ∀ f ∈ all_labels, f.data.head? = some ' ' := by decide
  cases fs with
  | nil => decide
  | cons f fs =>
    have hf := hl f (h f (List.mem_cons_self _ _))
    cases hd : f.data with
    | nil => rw [hd] at hf; simp at hf
    | cons c tl =>
      rw [hd] at hf
      simp only [List.head?_cons, Option.some.injEq] at hf
      subst hf
      simp [hd]

theorem line_data (usb_level q : Int) (w : Nat) :
    (String.join (port_status_header q w :: (port_status_flags usb_level w ++ ["\n"]))).data =
      (port_status_header q w).data ++
        (((port_status_flags usb_level w).map String.data).flatten ++ ['\n']) := by
  simp [String.data_join]

theorem text_occurrences (usb_level q : Int) (w : Nat) (x : String)
    (hx : x = " Power-On" ∨ x = " Power-Off") :
    occurrences x.data
      (String.join (port_status_header q w :: (port_status_flags usb_level w ++ ["\n"]))).data =
      (port_status_flags usb_level w).count x := by
  obtain ⟨tl, h1, h2⟩ := header_chars q w
  have hP : 'P' ∉ tl := fun h => absurd (h2 _ h) (by decide)
  have hfl := flags_in_all_labels usb_level w
  have hb := body_head _ hfl
  obtain ⟨pat, hpat⟩ : ∃ pat, x.data = ' ' :: 'P' :: pat := by
    rcases hx with rfl | rfl <;> exact ⟨_, rfl⟩
  rw [line_data, h1]
  have e1 : occurrences x.data ('P' :: tl ++
      (((port_status_flags usb_level w).map String.data).flatten ++ ['\n'])) =
      occurrences x.data (((port_status_flags usb_level w).map String.data).flatten ++ ['\n']) := by
    rw [hpat]
    exact occurrences_second ' ' 'P' pat tl _ 'P' hP hb
  rw [e1, occurrences_flags x hx _ _ hfl]
  have e2 : occurrences x.data ['\n'] = 0 := by
    rcases hx with rfl | rfl <;> decide
  rw [e2]
  rfl

/-- C1: in the text written to standard output by a successful status query
with 16-bit status word `w`: at protocol level at most 2, " Power-On" occurs
exactly once when `w & 0x0100` is non-zero and not at all otherwise, and
" Power-Off" occurs exactly once when `w & 0x0100` is zero and not at all
otherwise; at level 3 the same holds with `w & 0x0200`.  So exactly one of the
two labels occurs, exactly once. -/
theorem power_label_exactly_once (env : Env) (fd usb_level portnum : Int) (st : Sys)
    (hok : (env.oracle st.ncalls).rc ≠ -1) :
    status_word env st < 65536 ∧
    (usb_level ≤ 2 →
      occurrences " Power-On".data
          (stdout_text (port_status env fd usb_level portnum st).1).data =
        (if status_word env st &&& 0x0100 ≠ 0 then 1 else 0) ∧
      occurrences " Power-Off".data
          (stdout_text (port_status env fd usb_level portnum st).1).data =
        (if status_word env st &&& 0x0100 ≠ 0 then 0 else 1)) ∧
    (usb_level = 3 →
      occurrences " Power-On".data
          (stdout_text (port_status env fd usb_level portnum st).1).data =
        (if status_word env st &&& 0x0200 ≠ 0 then 1 else 0) ∧
      occurrences " Power-Off".data
          (stdout_text (port_status env fd usb_level portnum st).1).data =
        (if status_word env st &&& 0x0200 ≠ 0 then 0 else 1)) := by
  have hon := text_occurrences usb_level portnum (status_word env st) " Power-On" (Or.inl rfl)
  have hoff := text_occurrences usb_level portnum (status_word env st) " Power-Off" (Or.inr rfl)
  rw [flags_count_power_on] at hon
  rw [flags_count_power_off] at hoff
  unfold stdout_text
  rw [stdout_chunks_port_status env fd usb_level portnum st hok]
  refine ⟨field16_lt _ _ _, ?_, ?_⟩
  · intro hl
    rw [if_pos hl] at hon hoff
    exact ⟨hon, hoff⟩
  · intro hl
    have hl2 : ¬ usb_level ≤ 2 := by omega
    rw [if_neg hl2, if_pos hl] at hon hoff
    exact ⟨hon, hoff⟩

theorem power_label_exactly_once_witness :
    status_word sample_env ⟨3, 0⟩ < 65536 ∧
    ((2 : Int) ≤ 2 →
      occurrences " Power-On".data
          (stdout_text (port_status sample_env 3 2 1 ⟨3, 0⟩).1).data =
        (if status_word sample_env ⟨3, 0⟩ &&& 0x0100 ≠ 0 then 1 else 0) ∧
      occurrences " Power-Off".data
          (stdout_text (port_status sample_env 3 2 1 ⟨3, 0⟩).1).data =
        (if status_word sample_env ⟨3, 0⟩ &&& 0x0100 ≠ 0 then 0 else 1)) ∧
    ((2 : Int) = 3 →
      occurrences " Power-On".data
          (stdout_text (port_status sample_env 3 2 1 ⟨3, 0⟩).1).data =
        (if status_word sample_env ⟨3, 0⟩ &&& 0x0200 ≠ 0 then 1 else 0) ∧
      occurrences " Power-Off".data
          (stdout_text (port_status sample_env 3 2 1 ⟨3, 0⟩).1).data =
        (if status_word sample_env ⟨3, 0⟩ &&& 0x0200 ≠ 0 then 0 else 1)) :=
  power_label_exactly_once sample_env 3 2 1 ⟨3, 0⟩ (by decide)

/-! ## Runs that reach an error report made with `strerror` -/

theorem failed_transfer_ends_the_loop (env : Env) (hub : Hub) (a b : String)
    (rest : List String) (st : Sys)
    (hr : ¬ (atoi a < 1 ∨ atoi a > hub.numports)) (hb : b = "on" ∨ b = "off")
    (hf : (env.oracle st.ncalls).rc = -1) :
    power_loop env hub (a :: b :: rest) st =
      ([Event.sys (power_call hub.fd
          (if b = "on" then USB_REQ_SET_FEATURE else USB_REQ_CLEAR_FEATURE) (atoi a))
          (env.oracle st.ncalls)], Outcome.ended (Status.killed SIGSEGV)) := by
  apply power_loop_cons_ended
  rw [power_step_transfer env hub a b st hr hb, power_transfer_failed env hub _ _ st hf]
  rfl

/-- C5: the run `hubpower 2:5 power 1 on 2 on` against the sample hub when
the SET_FEATURE request for port 1 returns -1 (`errno` 32).  The run is the
set-up, the disconnect `ioctl` and that one request; the error report of
lines 267-269 calls `strerror` without a declaration and the process is
killed by SIGSEGV: no message is written, the pair `2 on` is never processed
and the exit status is not 0.  When the same request succeeds, the request
for port 2 is issued as well. -/
theorem failed_transfer_kills_the_batch :
    main (sample_env.with_reply 4 ⟨-1, 32, []⟩)
        ["hubpower", "2:5", "power", "1", "on", "2", "on"] =
      (sample_setup_events ++
        [Event.sys (Call.ioctl_usb 3 0 USBDEVFS_DISCONNECT) ⟨0, 0, [0x03, 0x01, 0, 0]⟩,
         Event.sys (Call.ioctl_control 3 (USB_DIR_OUT ||| USB_TYPE_CLASS ||| USB_RECIP_OTHER)
           USB_REQ_SET_FEATURE 8 1 0 5000) ⟨-1, 32, []⟩],
       Status.killed SIGSEGV)
    ∧ power_requests (main (sample_env.with_reply 4 ⟨-1, 32, []⟩)
        ["hubpower", "2:5", "power", "1", "on", "2", "on"]).1 =
      [Call.ioctl_control 3 (USB_DIR_OUT ||| USB_TYPE_CLASS ||| USB_RECIP_OTHER)
        USB_REQ_SET_FEATURE 8 1 0 5000]
    ∧ power_requests (main sample_env
        ["hubpower", "2:5", "power", "1", "on", "2", "on"]).1 =
      [Call.ioctl_control 3 (USB_DIR_OUT ||| USB_TYPE_CLASS ||| USB_RECIP_OTHER)
        USB_REQ_SET_FEATURE 8 1 0 5000,
       Call.ioctl_control 3 (USB_DIR_OUT ||| USB_TYPE_CLASS ||| USB_RECIP_OTHER)
        USB_REQ_SET_FEATURE 8 2 0 5000]
    ∧ (main sample_env ["hubpower", "2:5", "power", "1", "on", "2", "on"]).2 =
      Status.exited 0 := by
  decide

/-- C8: the run `hubpower 2:5 power 1 on` against the sample hub when the
driver-disconnect `ioctl` returns -1 with `errno` ENODATA and the SET_FEATURE
request for port 1 then returns -1 (`errno` 32).  The ENODATA failure is
passed over and the request is issued, exactly as in the run in which the
disconnect succeeded; but the error report of lines 267-269 calls `strerror`
without a declaration and in both runs the process is killed by SIGSEGV: the
exit status is not 0. -/
theorem enodata_then_failed_transfer_is_killed :
    main ((sample_env.with_reply 3 ⟨-1, ENODATA, []⟩).with_reply 4 ⟨-1, 32, []⟩)
        ["hubpower", "2:5", "power", "1", "on"] =
      (sample_setup_events ++
        [Event.sys (Call.ioctl_usb 3 0 USBDEVFS_DISCONNECT) ⟨-1, ENODATA, []⟩,
         Event.sys (Call.ioctl_control 3 (USB_DIR_OUT ||| USB_TYPE_CLASS ||| USB_RECIP_OTHER)
           USB_REQ_SET_FEATURE 8 1 0 5000) ⟨-1, 32, []⟩],
       Status.killed SIGSEGV)
    ∧ main (sample_env.with_reply 4 ⟨-1, 32, []⟩) ["hubpower", "2:5", "power", "1", "on"] =
      (sample_setup_events ++
        [Event.sys (Call.ioctl_usb 3 0 USBDEVFS_DISCONNECT) ⟨0, 0, [0x03, 0x01, 0, 0]⟩,
         Event.sys (Call.ioctl_control 3 (USB_DIR_OUT ||| USB_TYPE_CLASS ||| USB_RECIP_OTHER)
           USB_REQ_SET_FEATURE 8 1 0 5000) ⟨-1, 32, []⟩],
       Status.killed SIGSEGV) := by
  decide

/-! ## The power form without pairs -/

/-- C10: the run `hubpower 2:5 power`, with no port/state pair, against the
sample hub.  The argument check only tests that the number of arguments after
`power` is even, so it passes; the run does not end in the usage text and
status 1: the device is opened, the descriptors are read, the
driver-disconnect `ioctl` is issued and the exit status is 0. -/
theorem power_without_pairs_is_accepted :
    validate ["hubpower", "2:5", "power"] = some (2, 5, Action.DO_POWER)
    ∧ main sample_env ["hubpower", "2:5", "power"] =
      ([Event.sys (Call.sys_open "/dev/bus/usb/002/005") ⟨3, 0, []⟩,
        Event.sys (Call.sys_read 3 18) ⟨18, 0, [18, 1, 0, 2, 9, 0, 0, 64]⟩,
        Event.sys (hub_descriptor_call 3) ⟨7, 0, [9, 0x29, 4, 0, 0, 50, 100]⟩,
        Event.sys (Call.ioctl_usb 3 0 USBDEVFS_DISCONNECT) ⟨0, 0, [0x03, 0x01, 0, 0]⟩],
       Status.exited 0)
    ∧ main sample_env ["hubpower", "2:5", "power"] ≠ ([Event.err usage_text], Status.exited 1) := by
  decide


end Hubpower
